import Mathlib

/-!
Verification of the notification subsystem of the trade-signals app.

The subsystem lives in the notification service module (`requestNotificationPermissions`,
`registerForPushNotifications`, `sendLocalNotification`, `setupNotificationListeners`,
`sendTestNotification`) together with the listing UI (`NotificationSheet`).

We embed the TypeScript code shallowly:
- external platform calls (expo-notifications, the database layer) are modelled by an
  `Env` record that fixes the outcome of each external call for one invocation;
- side effects are an explicit `World` trace (calls made, stored state, logs);
- a TS `async` function that may throw is embedded as a function returning
  `Except String α × World`; a `try { .. } catch` is embedded by matching on the
  `Except` of the guarded calls and producing the catch block's effects.
-/

/-- The `Platform.OS` values relevant to this code base. -/
inductive PlatformOS
  | ios
  | android
  | web
deriving DecidableEq, Repr

/-- Permission statuses returned by the platform permission API. -/
inductive PermissionStatus
  | undetermined
  | denied
  | granted
deriving DecidableEq, Repr

/-- The closed set of notification kinds (`PushNotificationData.type`). -/
inductive NotificationType
  | signal
  | achievement
  | announcement
  | alert
deriving DecidableEq, Repr

/-- Opaque structured payload (`data?: any` in the source), modelled as an
association list of string keys and values; `none` models an absent payload. -/
def Payload : Type := List (String × String)

instance : DecidableEq Payload := by
  unfold Payload
  infer_instance

/-- Argument of `sendLocalNotification` (interface `PushNotificationData`). -/
structure PushNotificationData where
  type : NotificationType
  title : String
  message : String
  data : Option Payload
deriving DecidableEq

/-- Fields passed to `upsertUserProfile` by `registerForPushNotifications`. -/
structure UserProfileFields where
  user_id : String
  fcm_token : String
  device_type : PlatformOS
  app_version : String
deriving DecidableEq

/-- Fields passed to `createNotification` by `sendLocalNotification`. -/
structure CreateNotificationFields where
  type : NotificationType
  title : String
  message : String
  data : Option Payload
deriving DecidableEq

/-- A durable notification record, as the store returns it (spec section 6:
the store assigns `id`, `created_at` and `read := false`). -/
structure NotificationRecord where
  id : Nat
  type : NotificationType
  title : String
  message : String
  data : Option Payload
  created_at : Nat
  read : Bool
deriving DecidableEq

/-- Content handed to `Notifications.scheduleNotificationAsync`. -/
structure ScheduledContent where
  title : String
  body : String
  data : Option Payload
deriving DecidableEq

instance {ε α : Type} [DecidableEq ε] [DecidableEq α] : DecidableEq (Except ε α) := fun x y =>
  match x, y with
  | Except.ok a, Except.ok b =>
      if h : a = b then isTrue (by rw [h])
      else isFalse (by intro hh; cases hh; exact h rfl)
  | Except.error a, Except.error b =>
      if h : a = b then isTrue (by rw [h])
      else isFalse (by intro hh; cases hh; exact h rfl)
  | Except.ok _, Except.error _ => isFalse (by intro hh; cases hh)
  | Except.error _, Except.ok _ => isFalse (by intro hh; cases hh)

/-- Outcomes of the external calls for one invocation: the platform OS and,
for each fallible external API, either its result or the error it throws. -/
structure Env where
  os : PlatformOS
  getPermissionsResult : Except String PermissionStatus
  requestPermissionsResult : Except String PermissionStatus
  getExpoPushTokenResult : Except String String
  upsertUserProfileResult : Except String Unit
  scheduleNotificationResult : Except String Unit
  createNotificationResult : Except String Unit
deriving DecidableEq

/-- Observable side-effect trace: counters of platform calls, the calls made to
the database layer, the stored state, the active listener subscriptions, and
the `console.log` / `console.error` output. -/
structure World where
  permissionQueries : Nat
  permissionRequests : Nat
  tokenRequests : Nat
  upsertCalls : List UserProfileFields
  profiles : List UserProfileFields
  scheduleCalls : List ScheduledContent
  createCalls : List CreateNotificationFields
  records : List NotificationRecord
  nextNotifId : Nat
  now : Nat
  subscriptions : List Nat
  nextSubId : Nat
  logs : List String
  errorLogs : List String
deriving DecidableEq

/-- The empty starting world. -/
def emptyWorld : World where
  permissionQueries := 0
  permissionRequests := 0
  tokenRequests := 0
  upsertCalls := []
  profiles := []
  scheduleCalls := []
  createCalls := []
  records := []
  nextNotifId := 0
  now := 0
  subscriptions := []
  nextSubId := 0
  logs := []
  errorLogs := []

/-- Model of the external `Notifications.getPermissionsAsync` call: records
that the permission state was queried and yields the env-fixed outcome. -/
def getPermissionsAsync (env : Env) (w : World) : Except String PermissionStatus × World :=
  (env.getPermissionsResult, { w with permissionQueries := w.permissionQueries + 1 })

/-- Model of the external `Notifications.requestPermissionsAsync` call: records
that an interactive request was issued and yields the env-fixed outcome. -/
def requestPermissionsAsync (env : Env) (w : World) : Except String PermissionStatus × World :=
  (env.requestPermissionsResult, { w with permissionRequests := w.permissionRequests + 1 })

/-- Model of the external `Notifications.getExpoPushTokenAsync` call: records
that the push-token service was contacted and yields the env-fixed outcome. -/
def getExpoPushTokenAsync (env : Env) (w : World) : Except String String × World :=
  (env.getExpoPushTokenResult, { w with tokenRequests := w.tokenRequests + 1 })

/-- Model of the external `Notifications.scheduleNotificationAsync` call:
records the scheduled content and yields the env-fixed outcome. -/
def scheduleNotificationAsync (env : Env) (c : ScheduledContent) (w : World) :
    Except String Unit × World :=
  (env.scheduleNotificationResult, { w with scheduleCalls := w.scheduleCalls ++ [c] })

/-- Replace the profile keyed by `f.user_id` when present, else append (upsert). -/
def storeProfile (ps : List UserProfileFields) (f : UserProfileFields) :
    List UserProfileFields :=
  if ps.any (fun p => p.user_id == f.user_id) then
    ps.map (fun p => if p.user_id == f.user_id then f else p)
  else
    ps ++ [f]

/-- Modelled from the spec: `upsertUserProfile` lives in the database module
(`./database`), which is not among the provided sources. Per the spec's external
interfaces, it is an upsert keyed by `user_id`, idempotent under repeated
identical input. The call made is always recorded; the store is updated only
when the env says the call succeeds, otherwise the error propagates. -/
def upsertUserProfile (env : Env) (f : UserProfileFields) (w : World) :
    Except String Unit × World :=
  let w := { w with upsertCalls := w.upsertCalls ++ [f] }
  match env.upsertUserProfileResult with
  | Except.error e => (Except.error e, w)
  | Except.ok _ => (Except.ok (), { w with profiles := storeProfile w.profiles f })

/-- Modelled from the spec: `createNotification` lives in the database module
(`./database`), which is not among the provided sources. Per the spec's external
interfaces, it assigns `id` and `created_at` and sets `read := false` on the
new record. The call made is always recorded; the record is stored only when
the env says the call succeeds, otherwise the error propagates. -/
def createNotification (env : Env) (f : CreateNotificationFields) (w : World) :
    Except String NotificationRecord × World :=
  let w := { w with createCalls := w.createCalls ++ [f] }
  match env.createNotificationResult with
  | Except.error e => (Except.error e, w)
  | Except.ok _ =>
      let r : NotificationRecord :=
        { id := w.nextNotifId
          type := f.type
          title := f.title
          message := f.message
          data := f.data
          created_at := w.now
          read := false }
      (Except.ok r, { w with records := w.records ++ [r], nextNotifId := w.nextNotifId + 1 })

/-- Embedding of `requestNotificationPermissions`: on web, return `false`
before any platform call; otherwise query the current state, request
interactively only when the existing state is not granted, and catch any
error by logging it and returning `false`. -/
def requestNotificationPermissions (env : Env) (w : World) : Except String Bool × World :=
  if env.os = PlatformOS.web then
    (Except.ok false, w)
  else
    match getPermissionsAsync env w with
    | (Except.error e, w) =>
        (Except.ok false,
         { w with errorLogs :=
             w.errorLogs ++ ["Error requesting notification permissions: " ++ e] })
    | (Except.ok existingStatus, w) =>
        if existingStatus ≠ PermissionStatus.granted then
          match requestPermissionsAsync env w with
          | (Except.error e, w) =>
              (Except.ok false,
               { w with errorLogs :=
                   w.errorLogs ++ ["Error requesting notification permissions: " ++ e] })
          | (Except.ok status, w) =>
              (Except.ok (decide (status = PermissionStatus.granted)), w)
        else
          (Except.ok (decide (existingStatus = PermissionStatus.granted)), w)

/-- Embedding of `registerForPushNotifications`: ask for permission, bail out
with `null` when not granted or on web, otherwise fetch the push token and
upsert the profile fields; the surrounding try/catch turns any thrown error
into a logged diagnostic and a `null` result. -/
def registerForPushNotifications (env : Env) (userId : String) (w : World) :
    Except String (Option String) × World :=
  match requestNotificationPermissions env w with
  | (Except.error e, w) =>
      (Except.ok none,
       { w with errorLogs :=
           w.errorLogs ++ ["Error registering for push notifications: " ++ e] })
  | (Except.ok hasPermission, w) =>
      if !hasPermission then
        (Except.ok none,
         { w with logs := w.logs ++ ["Notification permissions not granted"] })
      else if env.os = PlatformOS.web then
        (Except.ok none, w)
      else
        match getExpoPushTokenAsync env w with
        | (Except.error e, w) =>
            (Except.ok none,
             { w with errorLogs :=
                 w.errorLogs ++ ["Error registering for push notifications: " ++ e] })
        | (Except.ok token, w) =>
            let fields : UserProfileFields :=
              { user_id := userId
                fcm_token := token
                device_type := env.os
                app_version := "1.0.0" }
            match upsertUserProfile env fields w with
            | (Except.error e, w) =>
                (Except.ok none,
                 { w with errorLogs :=
                     w.errorLogs ++ ["Error registering for push notifications: " ++ e] })
            | (Except.ok _, w) =>
                (Except.ok (some token),
                 { w with logs :=
                     w.logs ++ ["Push notification token registered: " ++ token] })

/-- Embedding of `sendLocalNotification`: one try block holds both the
platform display call and the database write; an error thrown by either is
caught by the single catch, which logs it. -/
def sendLocalNotification (env : Env) (data : PushNotificationData) (w : World) :
    Except String Unit × World :=
  match scheduleNotificationAsync env
      { title := data.title, body := data.message, data := data.data } w with
  | (Except.error e, w) =>
      (Except.ok (),
       { w with errorLogs := w.errorLogs ++ ["Error sending local notification: " ++ e] })
  | (Except.ok _, w) =>
      match createNotification env
          { type := data.type, title := data.title
            message := data.message, data := data.data } w with
      | (Except.error e, w) =>
          (Except.ok (),
           { w with errorLogs := w.errorLogs ++ ["Error sending local notification: " ++ e] })
      | (Except.ok _, w) => (Except.ok (), w)

/-! ### Listener hub

`setupNotificationListeners` registers one received listener and one response
(tap) listener with the platform notification center and returns a teardown
closure that removes both subscriptions. The platform's subscription registry
is the `subscriptions` field of the world: adding a listener allocates a fresh
subscription id; removing a subscription filters its id out (removal of an
already-removed subscription is a no-op in the platform event emitter). The
handler bodies are embedded separately as `receivedHandler` and
`responseHandler`, the functions the platform invokes on delivery and on tap. -/

/-- Nested shape of a platform notification response:
`response.notification.request.content.data`. -/
structure NotificationRequestContent where
  title : String
  body : String
  data : Option Payload
deriving DecidableEq

structure NotificationRequest where
  content : NotificationRequestContent
deriving DecidableEq

structure PlatformNotification where
  request : NotificationRequest
deriving DecidableEq

structure NotificationResponse where
  notification : PlatformNotification
deriving DecidableEq

/-- Model of the external `Notifications.addNotificationReceivedListener`:
allocates a fresh subscription id and activates it. -/
def addNotificationReceivedListener (w : World) : Nat × World :=
  (w.nextSubId,
   { w with subscriptions := w.subscriptions ++ [w.nextSubId], nextSubId := w.nextSubId + 1 })

/-- Model of the external `Notifications.addNotificationResponseReceivedListener`:
allocates a fresh subscription id and activates it. -/
def addNotificationResponseReceivedListener (w : World) : Nat × World :=
  (w.nextSubId,
   { w with subscriptions := w.subscriptions ++ [w.nextSubId], nextSubId := w.nextSubId + 1 })

/-- Model of the external `Notifications.removeNotificationSubscription`:
deactivates the subscription; removing an absent id changes nothing. -/
def removeNotificationSubscription (id : Nat) (w : World) : World :=
  { w with subscriptions := w.subscriptions.filter (fun s => s != id) }

/-- Optional-chaining field access `data?.k` on the opaque payload. -/
def payloadGet (p : Option Payload) (k : String) : Option String :=
  match p with
  | none => none
  | some kvs => kvs.lookup k

/-- Embedding of the received-while-foregrounded handler passed to
`addNotificationReceivedListener`: it only logs the delivery. -/
def receivedHandler (w : World) : World :=
  { w with logs := w.logs ++ ["Notification received"] }

/-- Embedding of the tap handler passed to
`addNotificationResponseReceivedListener`: logs the response, then probes
`data?.type` and `data?.signal_id` itself and, when the payload decodes as a
signal with a truthy `signal_id`, logs the navigation target. (A present but
empty string is falsy in the source language, hence the `sid ≠ ""` guard.) -/
def responseHandler (resp : NotificationResponse) (w : World) : World :=
  let w := { w with logs := w.logs ++ ["Notification response"] }
  let d := resp.notification.request.content.data
  match payloadGet d "type", payloadGet d "signal_id" with
  | some t, some sid =>
      if t = "signal" ∧ sid ≠ "" then
        { w with logs := w.logs ++ ["Navigate to signal: " ++ sid] }
      else w
  | _, _ => w

/-- Embedding of `setupNotificationListeners`: registers the two listeners and
returns the pair of subscription ids the teardown closure captures. -/
def setupNotificationListeners (w : World) : (Nat × Nat) × World :=
  let (notificationListener, w) := addNotificationReceivedListener w
  let (responseListener, w) := addNotificationResponseReceivedListener w
  ((notificationListener, responseListener), w)

/-- Embedding of the teardown closure returned by `setupNotificationListeners`:
removes the received-listener subscription, then the response-listener one. -/
def notificationTeardown (ids : Nat × Nat) (w : World) : World :=
  removeNotificationSubscription ids.2 (removeNotificationSubscription ids.1 w)

/-- The fixed payload of `sendTestNotification`. -/
def testNotificationData : PushNotificationData where
  type := NotificationType.signal
  title := "Test Signal Alert"
  message := "This is a test notification from your trading app!"
  data := some [("signal_id", "test-123"), ("pair", "XAU/USD")]

/-- Embedding of `sendTestNotification`. -/
def sendTestNotification (env : Env) (w : World) : Except String Unit × World :=
  sendLocalNotification env testNotificationData w

/-! ### Listing UI (`NotificationSheet`)

The sheet renders a constant in-component list of notifications; it defines no
mark-read handler and mutates no notification state. We embed the constant
list and the per-item view computation (unread styling and unread dot are
derived from the `read` flag; the item's press target installs no handler). -/

/-- The sheet's in-component notification shape. -/
structure SheetNotification where
  id : String
  type : NotificationType
  title : String
  message : String
  timestamp : String
  read : Bool
  reached : Option Nat
deriving DecidableEq

/-- The constant notification list rendered by `NotificationSheet`. -/
def notificationSheetNotifications : List SheetNotification :=
  [ { id := "1", type := NotificationType.signal, title := "Signal Closed - Profit!"
      message := "XAU/USD BUY signal closed with +$245 profit"
      timestamp := "2 hours ago", read := false, reached := some 13 }
  , { id := "2", type := NotificationType.achievement, title := "Streak Achievement!"
      message := "You've hit a 5-day winning streak!"
      timestamp := "1 day ago", read := false, reached := some 14 }
  , { id := "3", type := NotificationType.signal, title := "New Signal Available"
      message := "XAG/USD SELL signal just published"
      timestamp := "2 days ago", read := true, reached := some 16 }
  , { id := "4", type := NotificationType.announcement, title := "Market Update"
      message := "Gold showing strong bullish momentum this week"
      timestamp := "3 days ago", read := true, reached := some 24 }
  , { id := "5", type := NotificationType.alert, title := "Stop Loss Hit"
      message := "XAG/USD position closed at stop loss"
      timestamp := "1 week ago", read := true, reached := some 50 } ]

/-- Per-item view data computed by the sheet's render: the unread background
style and the unread dot are shown exactly when the item is unread; the text
fields are displayed unchanged. The render reads the `read` flag and never
writes it. -/
structure SheetItemView where
  showsUnreadStyle : Bool
  showsUnreadDot : Bool
  title : String
  message : String
deriving DecidableEq

def renderSheetItem (n : SheetNotification) : SheetItemView where
  showsUnreadStyle := !n.read
  showsUnreadDot := !n.read
  title := n.title
  message := n.message

/-! ### Concrete environments used by witnesses and counterexamples -/

/-- A native device on which every external call succeeds. -/
def envAllOk : Env where
  os := PlatformOS.ios
  getPermissionsResult := Except.ok PermissionStatus.undetermined
  requestPermissionsResult := Except.ok PermissionStatus.granted
  getExpoPushTokenResult := Except.ok "ExponentPushToken[abc]"
  upsertUserProfileResult := Except.ok ()
  scheduleNotificationResult := Except.ok ()
  createNotificationResult := Except.ok ()

/-- The web platform. -/
def envWeb : Env := { envAllOk with os := PlatformOS.web }

/-- A native device whose user refuses the permission request. -/
def envDenied : Env :=
  { envAllOk with
    getPermissionsResult := Except.ok PermissionStatus.denied
    requestPermissionsResult := Except.ok PermissionStatus.denied }

/-- A native device on which the platform display call throws. -/
def envDisplayFails : Env :=
  { envAllOk with scheduleNotificationResult := Except.error "display refused" }

/-- A native device on which the profile upsert throws. -/
def envUpsertFails : Env :=
  { envAllOk with upsertUserProfileResult := Except.error "db write failed" }

/-- A native device on which the record-store write throws. -/
def envCreateFails : Env :=
  { envAllOk with createNotificationResult := Except.error "db insert failed" }

/-! ### Helper lemmas -/

/-- `requestNotificationPermissions` touches only the permission counters and
the error log: every other world component is left unchanged. -/
theorem requestPermissions_frame (env : Env) (w : World) :
    (requestNotificationPermissions env w).2.tokenRequests = w.tokenRequests ∧
    (requestNotificationPermissions env w).2.upsertCalls = w.upsertCalls ∧
    (requestNotificationPermissions env w).2.profiles = w.profiles ∧
    (requestNotificationPermissions env w).2.scheduleCalls = w.scheduleCalls ∧
    (requestNotificationPermissions env w).2.createCalls = w.createCalls ∧
    (requestNotificationPermissions env w).2.records = w.records ∧
    (requestNotificationPermissions env w).2.subscriptions = w.subscriptions ∧
    (requestNotificationPermissions env w).2.logs = w.logs := by
  unfold requestNotificationPermissions getPermissionsAsync requestPermissionsAsync
  by_cases h : env.os = PlatformOS.web
  · simp [h]
  · cases hp : env.getPermissionsResult with
    | error e => simp [h, hp]
    | ok s =>
        by_cases hs : s = PermissionStatus.granted
        · simp [h, hp, hs]
        · cases hr : env.requestPermissionsResult <;> simp [h, hp, hs, hr]

/-- `requestNotificationPermissions` never throws: its result is always a
`Bool`, not a propagated error. -/
theorem requestPermissions_isOk (env : Env) (w : World) :
    ∃ b, (requestNotificationPermissions env w).1 = Except.ok b := by
  unfold requestNotificationPermissions getPermissionsAsync requestPermissionsAsync
  by_cases h : env.os = PlatformOS.web
  · exact ⟨false, by simp [h]⟩
  · cases hp : env.getPermissionsResult with
    | error e => exact ⟨false, by simp [h, hp]⟩
    | ok s =>
        by_cases hs : s = PermissionStatus.granted
        · exact ⟨decide (s = PermissionStatus.granted), by simp [h, hp, hs]⟩
        · cases hr : env.requestPermissionsResult with
          | error e => exact ⟨false, by simp [h, hp, hs, hr]⟩
          | ok s2 => exact ⟨decide (s2 = PermissionStatus.granted), by simp [h, hp, hs, hr]⟩

/-! ### Claim C5 -/

/-- C5: on the web platform, `requestNotificationPermissions` returns denied
(`false`) unconditionally and performs no side effect: the world is returned
untouched, so the permission state is never queried and no interactive request
is issued. -/
theorem requestPermissions_web_denied_pure (env : Env) (w : World)
    (h : env.os = PlatformOS.web) :
    requestNotificationPermissions env w = (Except.ok false, w) := by
  unfold requestNotificationPermissions
  simp [h]

/-- Witness for C5 at the concrete web environment. -/
theorem requestPermissions_web_denied_pure_witness :
    requestNotificationPermissions envWeb emptyWorld = (Except.ok false, emptyWorld) :=
  requestPermissions_web_denied_pure envWeb emptyWorld rfl

/-! ### Claim C6 -/

/-- C6: on a native platform, `requestNotificationPermissions` always returns
a state value (never throws), queries the current permission state exactly
once, issues an interactive request exactly when the existing state is not
granted (and at most once), and on any error from the permission API returns
`false` after appending the diagnostic to the error log. -/
theorem requestPermissions_native_contract (env : Env) (w : World)
    (h : env.os ≠ PlatformOS.web) :
    (∃ b, (requestNotificationPermissions env w).1 = Except.ok b) ∧
    (requestNotificationPermissions env w).2.permissionQueries = w.permissionQueries + 1 ∧
    (env.getPermissionsResult = Except.ok PermissionStatus.granted →
      (requestNotificationPermissions env w).2.permissionRequests = w.permissionRequests) ∧
    (∀ s, env.getPermissionsResult = Except.ok s → s ≠ PermissionStatus.granted →
      (requestNotificationPermissions env w).2.permissionRequests = w.permissionRequests + 1) ∧
    (∀ e, env.getPermissionsResult = Except.error e →
      (requestNotificationPermissions env w).2.permissionRequests = w.permissionRequests ∧
      (requestNotificationPermissions env w).1 = Except.ok false ∧
      (requestNotificationPermissions env w).2.errorLogs =
        w.errorLogs ++ ["Error requesting notification permissions: " ++ e]) ∧
    (∀ s e, env.getPermissionsResult = Except.ok s → s ≠ PermissionStatus.granted →
      env.requestPermissionsResult = Except.error e →
      (requestNotificationPermissions env w).1 = Except.ok false ∧
      (requestNotificationPermissions env w).2.errorLogs =
        w.errorLogs ++ ["Error requesting notification permissions: " ++ e]) := by
  refine ⟨requestPermissions_isOk env w, ?_, ?_, ?_, ?_, ?_⟩ <;>
    unfold requestNotificationPermissions getPermissionsAsync requestPermissionsAsync
  · cases hp : env.getPermissionsResult with
    | error e => simp [h, hp]
    | ok s =>
        by_cases hs : s = PermissionStatus.granted
        · simp [h, hp, hs]
        · cases hr : env.requestPermissionsResult <;> simp [h, hp, hs, hr]
  · intro hp
    simp [h, hp]
  · intro s hp hs
    cases hr : env.requestPermissionsResult <;> simp [h, hp, hs, hr]
  · intro e hp
    simp [h, hp]
  · intro s e hp hs hr
    simp [h, hp, hs, hr]

/-- Witness for C6: the native all-ok environment, whose existing state is
undetermined, so exactly one interactive request is issued. -/
theorem requestPermissions_native_contract_witness :
    (∃ b, (requestNotificationPermissions envAllOk emptyWorld).1 = Except.ok b) ∧
    (requestNotificationPermissions envAllOk emptyWorld).2.permissionQueries =
      emptyWorld.permissionQueries + 1 ∧
    (envAllOk.getPermissionsResult = Except.ok PermissionStatus.granted →
      (requestNotificationPermissions envAllOk emptyWorld).2.permissionRequests =
        emptyWorld.permissionRequests) ∧
    (∀ s, envAllOk.getPermissionsResult = Except.ok s → s ≠ PermissionStatus.granted →
      (requestNotificationPermissions envAllOk emptyWorld).2.permissionRequests =
        emptyWorld.permissionRequests + 1) ∧
    (∀ e, envAllOk.getPermissionsResult = Except.error e →
      (requestNotificationPermissions envAllOk emptyWorld).2.permissionRequests =
        emptyWorld.permissionRequests ∧
      (requestNotificationPermissions envAllOk emptyWorld).1 = Except.ok false ∧
      (requestNotificationPermissions envAllOk emptyWorld).2.errorLogs =
        emptyWorld.errorLogs ++ ["Error requesting notification permissions: " ++ e]) ∧
    (∀ s e, envAllOk.getPermissionsResult = Except.ok s → s ≠ PermissionStatus.granted →
      envAllOk.requestPermissionsResult = Except.error e →
      (requestNotificationPermissions envAllOk emptyWorld).1 = Except.ok false ∧
      (requestNotificationPermissions envAllOk emptyWorld).2.errorLogs =
        emptyWorld.errorLogs ++ ["Error requesting notification permissions: " ++ e]) :=
  requestPermissions_native_contract envAllOk emptyWorld (by decide)

/-! ### Profile store lookup -/

/-- Look up the stored profile of a user. -/
def lookupProfile (ps : List UserProfileFields) (uid : String) : Option UserProfileFields :=
  ps.find? (fun p => p.user_id == uid)

/-- After an upsert of `f`, looking up `f.user_id` yields exactly `f`. -/
theorem lookupProfile_storeProfile (ps : List UserProfileFields) (f : UserProfileFields) :
    lookupProfile (storeProfile ps f) f.user_id = some f := by
  induction ps with
  | nil => simp [storeProfile, lookupProfile]
  | cons p ps ih =>
      by_cases hp : p.user_id = f.user_id
      · simp [storeProfile, lookupProfile, hp]
      · by_cases hany : ps.any (fun q => q.user_id == f.user_id)
        · simp [storeProfile, lookupProfile, hp, hany] at ih ⊢
          exact ih
        · simp [storeProfile, lookupProfile, hp, hany] at ih ⊢
          exact ih

/-! ### Claim C4 -/

/-- C4: when the permission step reports not granted, `registerForPushNotifications`
returns `none` and neither contacts the push-token service nor writes the
user profile (no token request, no upsert call, unchanged profile store). -/
theorem register_denied_skips_token_and_profile (env : Env) (uid : String) (w : World)
    (h : (requestNotificationPermissions env w).1 = Except.ok false) :
    (registerForPushNotifications env uid w).1 = Except.ok none ∧
    (registerForPushNotifications env uid w).2.tokenRequests = w.tokenRequests ∧
    (registerForPushNotifications env uid w).2.upsertCalls = w.upsertCalls ∧
    (registerForPushNotifications env uid w).2.profiles = w.profiles := by
  have hframe := requestPermissions_frame env w
  unfold registerForPushNotifications
  rcases hreq : requestNotificationPermissions env w with ⟨r1, w1⟩
  rw [hreq] at h hframe
  simp at h hframe
  subst h
  simp [hframe.1, hframe.2.1, hframe.2.2.1]

/-- Witness for C4: the user denies the permission request. -/
theorem register_denied_skips_token_and_profile_witness :
    (registerForPushNotifications envDenied "user-1" emptyWorld).1 = Except.ok none ∧
    (registerForPushNotifications envDenied "user-1" emptyWorld).2.tokenRequests =
      emptyWorld.tokenRequests ∧
    (registerForPushNotifications envDenied "user-1" emptyWorld).2.upsertCalls =
      emptyWorld.upsertCalls ∧
    (registerForPushNotifications envDenied "user-1" emptyWorld).2.profiles =
      emptyWorld.profiles :=
  register_denied_skips_token_and_profile envDenied "user-1" emptyWorld (by decide)

/-! ### Claim C3 -/

/-- C3: any failure of either internal step of `registerForPushNotifications`
— the token fetch throwing, or the token being obtained and the profile
persistence throwing — still yields the `none` sentinel, never a propagated
exception. -/
theorem register_internal_failure_returns_none (env : Env) (uid : String) (w : World)
    (h : (∃ e, env.getExpoPushTokenResult = Except.error e) ∨
         (∃ e, env.upsertUserProfileResult = Except.error e)) :
    (registerForPushNotifications env uid w).1 = Except.ok none := by
  unfold registerForPushNotifications getExpoPushTokenAsync upsertUserProfile
  rcases hreq : requestNotificationPermissions env w with ⟨r1, w1⟩
  cases r1 with
  | error e => simp
  | ok b =>
      cases b with
      | false => simp
      | true =>
          by_cases hw : env.os = PlatformOS.web
          · simp [hw]
          · cases htok : env.getExpoPushTokenResult with
            | error e => simp [hw, htok]
            | ok token =>
                cases hup : env.upsertUserProfileResult with
                | error e => simp [hw, htok, hup]
                | ok u =>
                    exfalso
                    rcases h with ⟨e, he⟩ | ⟨e, he⟩
                    · rw [htok] at he
                      exact Except.noConfusion he
                    · rw [hup] at he
                      exact Except.noConfusion he

/-- Witness for C3: token obtained, but the profile upsert throws. -/
theorem register_internal_failure_returns_none_witness :
    (registerForPushNotifications envUpsertFails "user-1" emptyWorld).1 = Except.ok none :=
  register_internal_failure_returns_none envUpsertFails "user-1" emptyWorld
    (Or.inr ⟨"db write failed", rfl⟩)

/-! ### Claim C10 -/

/-- C10: whenever `registerForPushNotifications` returns a token, the profile
upsert it performed for that user carries exactly that token as `fcm_token`,
the current platform OS as `device_type`, and `app_version = "1.0.0"`; the
stored profile for the user afterwards is exactly those fields. -/
theorem register_success_upserts_exact_fields (env : Env) (uid t : String) (w : World)
    (h : (registerForPushNotifications env uid w).1 = Except.ok (some t)) :
    (registerForPushNotifications env uid w).2.upsertCalls =
      w.upsertCalls ++ [⟨uid, t, env.os, "1.0.0"⟩] ∧
    (registerForPushNotifications env uid w).2.profiles =
      storeProfile w.profiles ⟨uid, t, env.os, "1.0.0"⟩ ∧
    lookupProfile (registerForPushNotifications env uid w).2.profiles uid =
      some ⟨uid, t, env.os, "1.0.0"⟩ := by
  have hframe := requestPermissions_frame env w
  have hlook := lookupProfile_storeProfile w.profiles ⟨uid, t, env.os, "1.0.0"⟩
  unfold registerForPushNotifications getExpoPushTokenAsync upsertUserProfile at h ⊢
  rcases hreq : requestNotificationPermissions env w with ⟨r1, w1⟩
  rw [hreq] at h hframe
  simp at hframe
  cases r1 with
  | error e => simp at h
  | ok b =>
      cases b with
      | false => simp at h
      | true =>
          by_cases hw : env.os = PlatformOS.web
          · simp [hw] at h
          · cases htok : env.getExpoPushTokenResult with
            | error e => simp [hw, htok] at h
            | ok token =>
                cases hup : env.upsertUserProfileResult with
                | error e => simp [hw, htok, hup] at h
                | ok u =>
                    simp [hw, htok, hup] at h ⊢
                    subst h
                    refine ⟨?_, ?_, ?_⟩
                    · rw [hframe.2.1]
                    · rw [hframe.2.2.1]
                    · rw [hframe.2.2.1]
                      simpa using hlook

/-- Witness for C10: the all-ok environment registers its token and stores the
matching profile fields. -/
theorem register_success_upserts_exact_fields_witness :
    (registerForPushNotifications envAllOk "user-1" emptyWorld).2.upsertCalls =
      emptyWorld.upsertCalls ++
        [⟨"user-1", "ExponentPushToken[abc]", envAllOk.os, "1.0.0"⟩] ∧
    (registerForPushNotifications envAllOk "user-1" emptyWorld).2.profiles =
      storeProfile emptyWorld.profiles
        ⟨"user-1", "ExponentPushToken[abc]", envAllOk.os, "1.0.0"⟩ ∧
    lookupProfile (registerForPushNotifications envAllOk "user-1" emptyWorld).2.profiles
        "user-1" =
      some ⟨"user-1", "ExponentPushToken[abc]", envAllOk.os, "1.0.0"⟩ :=
  register_success_upserts_exact_fields envAllOk "user-1" "ExponentPushToken[abc]"
    emptyWorld (by decide)

/-! ### Claim C7 -/

/-- C7: `sendLocalNotification` never raises to its caller — the result is
always the `void` value — and whichever of the two steps throws (the display
call, or the persistence call after a successful display), its error is caught
and appended to the error log. -/
theorem dispatch_never_throws_logs_errors (env : Env) (d : PushNotificationData) (w : World) :
    (sendLocalNotification env d w).1 = Except.ok () ∧
    (∀ e, env.scheduleNotificationResult = Except.error e →
      (sendLocalNotification env d w).2.errorLogs =
        w.errorLogs ++ ["Error sending local notification: " ++ e]) ∧
    (∀ e, env.scheduleNotificationResult = Except.ok () →
      env.createNotificationResult = Except.error e →
      (sendLocalNotification env d w).2.errorLogs =
        w.errorLogs ++ ["Error sending local notification: " ++ e]) := by
  unfold sendLocalNotification scheduleNotificationAsync createNotification
  refine ⟨?_, ?_, ?_⟩
  · cases hs : env.scheduleNotificationResult with
    | error e => simp [hs]
    | ok u => cases hc : env.createNotificationResult <;> simp [hs, hc]
  · intro e hs
    simp [hs]
  · intro e hs hc
    simp [hs, hc]

/-- Witness for C7: with a failing record store, the dispatch still returns
`void` and the error is logged. -/
theorem dispatch_never_throws_logs_errors_witness :
    (sendLocalNotification envCreateFails testNotificationData emptyWorld).1 = Except.ok () ∧
    (∀ e, envCreateFails.scheduleNotificationResult = Except.error e →
      (sendLocalNotification envCreateFails testNotificationData emptyWorld).2.errorLogs =
        emptyWorld.errorLogs ++ ["Error sending local notification: " ++ e]) ∧
    (∀ e, envCreateFails.scheduleNotificationResult = Except.ok () →
      envCreateFails.createNotificationResult = Except.error e →
      (sendLocalNotification envCreateFails testNotificationData emptyWorld).2.errorLogs =
        emptyWorld.errorLogs ++ ["Error sending local notification: " ++ e]) :=
  dispatch_never_throws_logs_errors envCreateFails testNotificationData emptyWorld

/-! ### Claim C1 -/

/-- C1 counterexample: the claim says persistence is attempted for every
dispatch, even when the platform display call fails. In the source, the
display call and the persistence call share one try block, so when
`scheduleNotificationAsync` throws, `createNotification` is never reached: at
the concrete failing-display environment, the dispatch of the test
notification makes zero `createNotification` calls and creates zero records,
not exactly one. -/
theorem dispatch_display_failure_drops_record_cex :
    ¬ ((sendLocalNotification envDisplayFails testNotificationData emptyWorld).2.records.length
        = 1) ∧
    (sendLocalNotification envDisplayFails testNotificationData emptyWorld).2.createCalls = [] ∧
    (sendLocalNotification envDisplayFails testNotificationData emptyWorld).2.records = [] := by
  decide

/-- C1 (amended): `sendLocalNotification` attempts the persistence step
exactly when the display step succeeds. On a successful display it makes
exactly one `createNotification` call carrying the input's fields, and when
that call also succeeds exactly one record is appended (unread); when the
display call fails, no persistence call is made and no record is created —
the error is logged instead. -/
theorem dispatch_persistence_gated_on_display (env : Env) (d : PushNotificationData)
    (w : World) :
    (env.scheduleNotificationResult = Except.ok () →
      (sendLocalNotification env d w).2.createCalls =
        w.createCalls ++ [⟨d.type, d.title, d.message, d.data⟩] ∧
      (env.createNotificationResult = Except.ok () →
        (sendLocalNotification env d w).2.records =
          w.records ++ [⟨w.nextNotifId, d.type, d.title, d.message, d.data, w.now, false⟩])) ∧
    (∀ e, env.scheduleNotificationResult = Except.error e →
      (sendLocalNotification env d w).2.createCalls = w.createCalls ∧
      (sendLocalNotification env d w).2.records = w.records) := by
  unfold sendLocalNotification scheduleNotificationAsync createNotification
  refine ⟨?_, ?_⟩
  · intro hs
    refine ⟨?_, ?_⟩
    · cases hc : env.createNotificationResult <;> simp [hs, hc]
    · intro hc
      simp [hs, hc]
  · intro e hs
    simp [hs]

/-- Witness for the amended C1 at the all-ok environment: one persistence
call, one unread record. -/
theorem dispatch_persistence_gated_on_display_witness :
    (envAllOk.scheduleNotificationResult = Except.ok () →
      (sendLocalNotification envAllOk testNotificationData emptyWorld).2.createCalls =
        emptyWorld.createCalls ++
          [⟨testNotificationData.type, testNotificationData.title,
            testNotificationData.message, testNotificationData.data⟩] ∧
      (envAllOk.createNotificationResult = Except.ok () →
        (sendLocalNotification envAllOk testNotificationData emptyWorld).2.records =
          emptyWorld.records ++
            [⟨emptyWorld.nextNotifId, testNotificationData.type, testNotificationData.title,
              testNotificationData.message, testNotificationData.data, emptyWorld.now,
              false⟩])) ∧
    (∀ e, envAllOk.scheduleNotificationResult = Except.error e →
      (sendLocalNotification envAllOk testNotificationData emptyWorld).2.createCalls =
        emptyWorld.createCalls ∧
      (sendLocalNotification envAllOk testNotificationData emptyWorld).2.records =
        emptyWorld.records) :=
  dispatch_persistence_gated_on_display envAllOk testNotificationData emptyWorld

/-! ### Claim C2 -/

/-- A tap on a notification whose payload carries `type = "signal"` and a
non-empty `signal_id`. -/
def tapSignal : NotificationResponse where
  notification :=
    { request :=
        { content :=
            { title := "Test Signal Alert"
              body := "This is a test notification from your trading app!"
              data := some [("type", "signal"), ("signal_id", "test-123")] } } }

/-- A tap on a notification whose payload is not a signal payload. -/
def tapPlain : NotificationResponse where
  notification :=
    { request :=
        { content :=
            { title := "Market Update"
              body := "Gold showing strong bullish momentum this week"
              data := some [("type", "announcement")] } } }

/-- C2 counterexample: the claim says the hub forwards the tapped payload,
undecoded, to a caller-supplied `onOpened` handler rather than acting on it
itself. In the source, `setupNotificationListeners` accepts no handlers at
all, and the tap handler decodes the payload itself: its effect branches on
the payload's `type` and `signal_id` fields, and for the concrete signal tap
the hub itself emits the navigation action — so its behavior is not a
payload-independent forward. -/
theorem tap_handler_decodes_payload_cex :
    (responseHandler tapSignal emptyWorld).logs =
      ["Notification response", "Navigate to signal: test-123"] ∧
    (responseHandler tapPlain emptyWorld).logs = ["Notification response"] ∧
    (responseHandler tapSignal emptyWorld).logs ≠ (responseHandler tapPlain emptyWorld).logs := by
  decide

/-- C2 (amended): `setupNotificationListeners` accepts no caller-supplied
handlers; it registers exactly one received-while-foregrounded subscription
and one tap subscription (two fresh ids). The tap handler acts on the payload
itself: it touches no records, subscriptions or profile calls, logs the
response, and when the payload decodes as `type = "signal"` with a non-empty
`signal_id` it additionally logs the navigation target itself; when the
payload has no `type` field it logs nothing beyond the response. -/
theorem listeners_register_two_and_tap_self_decodes (w : World) (resp : NotificationResponse) :
    (setupNotificationListeners w).2.subscriptions =
      w.subscriptions ++ [w.nextSubId, w.nextSubId + 1] ∧
    (setupNotificationListeners w).1 = (w.nextSubId, w.nextSubId + 1) ∧
    (responseHandler resp w).records = w.records ∧
    (responseHandler resp w).subscriptions = w.subscriptions ∧
    (responseHandler resp w).upsertCalls = w.upsertCalls ∧
    (∀ sid, payloadGet resp.notification.request.content.data "type" = some "signal" →
      payloadGet resp.notification.request.content.data "signal_id" = some sid → sid ≠ "" →
      (responseHandler resp w).logs =
        w.logs ++ ["Notification response", "Navigate to signal: " ++ sid]) ∧
    (payloadGet resp.notification.request.content.data "type" = none →
      (responseHandler resp w).logs = w.logs ++ ["Notification response"]) := by
  refine ⟨?_, ?_, ?_, ?_, ?_, ?_, ?_⟩
  · unfold setupNotificationListeners addNotificationReceivedListener
      addNotificationResponseReceivedListener
    simp
  · unfold setupNotificationListeners addNotificationReceivedListener
      addNotificationResponseReceivedListener
    simp
  all_goals unfold responseHandler
  · cases ht : payloadGet resp.notification.request.content.data "type" with
    | none => simp [ht]
    | some t =>
        cases hs : payloadGet resp.notification.request.content.data "signal_id" with
        | none => simp [ht, hs]
        | some sid =>
            by_cases hcond : t = "signal" ∧ sid ≠ ""
            · simp [ht, hs, hcond]
            · simp [ht, hs, hcond]
  · cases ht : payloadGet resp.notification.request.content.data "type" with
    | none => simp [ht]
    | some t =>
        cases hs : payloadGet resp.notification.request.content.data "signal_id" with
        | none => simp [ht, hs]
        | some sid =>
            by_cases hcond : t = "signal" ∧ sid ≠ ""
            · simp [ht, hs, hcond]
            · simp [ht, hs, hcond]
  · cases ht : payloadGet resp.notification.request.content.data "type" with
    | none => simp [ht]
    | some t =>
        cases hs : payloadGet resp.notification.request.content.data "signal_id" with
        | none => simp [ht, hs]
        | some sid =>
            by_cases hcond : t = "signal" ∧ sid ≠ ""
            · simp [ht, hs, hcond]
            · simp [ht, hs, hcond]
  · intro sid ht hs hsid
    simp [ht, hs, hsid]
  · intro ht
    simp [ht]

/-- Witness for the amended C2 at the concrete signal tap. -/
theorem listeners_register_two_and_tap_self_decodes_witness :
    (setupNotificationListeners emptyWorld).2.subscriptions =
      emptyWorld.subscriptions ++ [emptyWorld.nextSubId, emptyWorld.nextSubId + 1] ∧
    (setupNotificationListeners emptyWorld).1 =
      (emptyWorld.nextSubId, emptyWorld.nextSubId + 1) ∧
    (responseHandler tapSignal emptyWorld).records = emptyWorld.records ∧
    (responseHandler tapSignal emptyWorld).subscriptions = emptyWorld.subscriptions ∧
    (responseHandler tapSignal emptyWorld).upsertCalls = emptyWorld.upsertCalls ∧
    (∀ sid,
      payloadGet tapSignal.notification.request.content.data "type" = some "signal" →
      payloadGet tapSignal.notification.request.content.data "signal_id" = some sid →
      sid ≠ "" →
      (responseHandler tapSignal emptyWorld).logs =
        emptyWorld.logs ++ ["Notification response", "Navigate to signal: " ++ sid]) ∧
    (payloadGet tapSignal.notification.request.content.data "type" = none →
      (responseHandler tapSignal emptyWorld).logs =
        emptyWorld.logs ++ ["Notification response"]) :=
  listeners_register_two_and_tap_self_decodes emptyWorld tapSignal

/-! ### Claim C8 -/

/-- Filtering out the same two ids a second time changes nothing. -/
theorem filter_pair_idem (i j : Nat) (l : List Nat) :
    ((((l.filter (fun s => s != i)).filter (fun s => s != j)).filter
        (fun s => s != i)).filter (fun s => s != j)) =
      (l.filter (fun s => s != i)).filter (fun s => s != j) := by
  induction l with
  | nil => simp
  | cons a l ih =>
      by_cases hi : a = i
      · simpa [hi] using ih
      · by_cases hj : a = j
        · simpa [hi, hj] using ih
        · simpa [hi, hj] using ih

/-- C8: the teardown returned by `setupNotificationListeners` is idempotent —
running it a second time on the same attachment is a no-op (so it cannot
raise) — and after teardown neither of the attachment's two subscription ids
is still active. -/
theorem teardown_idempotent_zero_subscriptions (w : World) :
    notificationTeardown (setupNotificationListeners w).1
        (notificationTeardown (setupNotificationListeners w).1
          (setupNotificationListeners w).2) =
      notificationTeardown (setupNotificationListeners w).1 (setupNotificationListeners w).2 ∧
    (setupNotificationListeners w).1.1 ∉
      (notificationTeardown (setupNotificationListeners w).1
        (setupNotificationListeners w).2).subscriptions ∧
    (setupNotificationListeners w).1.2 ∉
      (notificationTeardown (setupNotificationListeners w).1
        (setupNotificationListeners w).2).subscriptions := by
  unfold notificationTeardown setupNotificationListeners addNotificationReceivedListener
    addNotificationResponseReceivedListener removeNotificationSubscription
  refine ⟨?_, ?_, ?_⟩
  · simp [filter_pair_idem]
    apply List.filter_congr
    intro a _
    cases h1 : a != w.nextSubId <;> cases h2 : a != w.nextSubId + 1 <;> simp [h1, h2]
  · simp [List.mem_filter]
  · simp [List.mem_filter]

/-- Witness for C8 at the empty world. -/
theorem teardown_idempotent_zero_subscriptions_witness :
    notificationTeardown (setupNotificationListeners emptyWorld).1
        (notificationTeardown (setupNotificationListeners emptyWorld).1
          (setupNotificationListeners emptyWorld).2) =
      notificationTeardown (setupNotificationListeners emptyWorld).1
        (setupNotificationListeners emptyWorld).2 ∧
    (setupNotificationListeners emptyWorld).1.1 ∉
      (notificationTeardown (setupNotificationListeners emptyWorld).1
        (setupNotificationListeners emptyWorld).2).subscriptions ∧
    (setupNotificationListeners emptyWorld).1.2 ∉
      (notificationTeardown (setupNotificationListeners emptyWorld).1
        (setupNotificationListeners emptyWorld).2).subscriptions :=
  teardown_idempotent_zero_subscriptions emptyWorld

/-! ### Claim C9 -/

/-- A world transformer only appends notification records, and every record
it appends is created unread: every pre-existing record survives verbatim —
in particular a record with `read = true` keeps `read = true` — and any new
record carries `read = false`. -/
def recordsAppendUnread (f : World → World) : Prop :=
  ∀ w, ∃ new, (f w).records = w.records ++ new ∧ ∀ r ∈ new, r.read = false

theorem sendLocal_recordsAppendUnread (env : Env) (d : PushNotificationData) :
    recordsAppendUnread (fun w => (sendLocalNotification env d w).2) := by
  intro w
  unfold sendLocalNotification scheduleNotificationAsync createNotification
  cases hs : env.scheduleNotificationResult with
  | error e => refine ⟨[], ?_, ?_⟩ <;> simp
  | ok u =>
      cases hc : env.createNotificationResult with
      | error e => refine ⟨[], ?_, ?_⟩ <;> simp
      | ok u2 =>
          refine ⟨[⟨w.nextNotifId, d.type, d.title, d.message, d.data, w.now, false⟩], ?_, ?_⟩
          · simp
          · simp

theorem requestPermissions_recordsAppendUnread (env : Env) :
    recordsAppendUnread (fun w => (requestNotificationPermissions env w).2) := by
  intro w
  exact ⟨[], by simpa using (requestPermissions_frame env w).2.2.2.2.2.1, by simp⟩

theorem register_recordsAppendUnread (env : Env) (uid : String) :
    recordsAppendUnread (fun w => (registerForPushNotifications env uid w).2) := by
  intro w
  refine ⟨[], ?_, by simp⟩
  have hrec := (requestPermissions_frame env w).2.2.2.2.2.1
  unfold registerForPushNotifications getExpoPushTokenAsync upsertUserProfile
  rcases hreq : requestNotificationPermissions env w with ⟨r1, w1⟩
  rw [hreq] at hrec
  simp at hrec
  cases r1 with
  | error e => simp [hreq, hrec]
  | ok b =>
      cases b with
      | false => simp [hreq, hrec]
      | true =>
          by_cases hw : env.os = PlatformOS.web
          · simp [hreq, hw, hrec]
          · cases htok : env.getExpoPushTokenResult with
            | error e => simp [hreq, hw, htok, hrec]
            | ok token =>
                cases hup : env.upsertUserProfileResult with
                | error e => simp [hreq, hw, htok, hup, hrec]
                | ok u => simp [hreq, hw, htok, hup, hrec]

theorem createNotification_recordsAppendUnread (env : Env) (f : CreateNotificationFields) :
    recordsAppendUnread (fun w => (createNotification env f w).2) := by
  intro w
  unfold createNotification
  cases hc : env.createNotificationResult with
  | error e => refine ⟨[], ?_, ?_⟩ <;> simp
  | ok u =>
      refine ⟨[⟨w.nextNotifId, f.type, f.title, f.message, f.data, w.now, false⟩], ?_, ?_⟩
      · simp
      · simp

theorem upsertUserProfile_recordsAppendUnread (env : Env) (f : UserProfileFields) :
    recordsAppendUnread (fun w => (upsertUserProfile env f w).2) := by
  intro w
  refine ⟨[], ?_, by simp⟩
  unfold upsertUserProfile
  cases hu : env.upsertUserProfileResult <;> simp

theorem receivedHandler_recordsAppendUnread : recordsAppendUnread receivedHandler := by
  intro w
  exact ⟨[], by simp [receivedHandler], by simp⟩

theorem responseHandler_recordsAppendUnread (resp : NotificationResponse) :
    recordsAppendUnread (responseHandler resp) := by
  intro w
  refine ⟨[], ?_, by simp⟩
  unfold responseHandler
  cases ht : payloadGet resp.notification.request.content.data "type" with
  | none => simp [ht]
  | some t =>
      cases hs : payloadGet resp.notification.request.content.data "signal_id" with
      | none => simp [ht, hs]
      | some sid =>
          by_cases hcond : t = "signal" ∧ sid ≠ ""
          · simp [ht, hs, hcond]
          · simp [ht, hs, hcond]

theorem setupListeners_recordsAppendUnread :
    recordsAppendUnread (fun w => (setupNotificationListeners w).2) := by
  intro w
  refine ⟨[], ?_, by simp⟩
  unfold setupNotificationListeners addNotificationReceivedListener
    addNotificationResponseReceivedListener
  simp

theorem teardown_recordsAppendUnread (ids : Nat × Nat) :
    recordsAppendUnread (notificationTeardown ids) := by
  intro w
  refine ⟨[], ?_, by simp⟩
  unfold notificationTeardown removeNotificationSubscription
  simp

/-- C9: the `read` flag is monotone under every operation of the subsystem.
Each state-changing operation — dispatch (`sendLocalNotification`, and
`sendTestNotification` built on it), registration and its permission step, the
store calls themselves, both platform listeners' handlers, and listener
setup/teardown — only appends notification records and never rewrites an
existing one, so a record with `read = true` stays `read = true`; and every
record any of them creates starts with `read = false`. The listing UI
(`NotificationSheet`) renders the constant `notificationSheetNotifications`
list through the pure `renderSheetItem` and defines no mutation at all, so no
operation of the subsystem resets `read` to `false`. -/
theorem read_flag_monotone_all_ops :
    (∀ env d, recordsAppendUnread (fun w => (sendLocalNotification env d w).2)) ∧
    (∀ env, recordsAppendUnread (fun w => (sendTestNotification env w).2)) ∧
    (∀ env uid, recordsAppendUnread (fun w => (registerForPushNotifications env uid w).2)) ∧
    (∀ env, recordsAppendUnread (fun w => (requestNotificationPermissions env w).2)) ∧
    (∀ env f, recordsAppendUnread (fun w => (createNotification env f w).2)) ∧
    (∀ env f, recordsAppendUnread (fun w => (upsertUserProfile env f w).2)) ∧
    recordsAppendUnread receivedHandler ∧
    (∀ resp, recordsAppendUnread (responseHandler resp)) ∧
    recordsAppendUnread (fun w => (setupNotificationListeners w).2) ∧
    (∀ ids, recordsAppendUnread (notificationTeardown ids)) :=
  ⟨sendLocal_recordsAppendUnread,
   fun env => sendLocal_recordsAppendUnread env testNotificationData,
   register_recordsAppendUnread,
   requestPermissions_recordsAppendUnread,
   createNotification_recordsAppendUnread,
   upsertUserProfile_recordsAppendUnread,
   receivedHandler_recordsAppendUnread,
   responseHandler_recordsAppendUnread,
   setupListeners_recordsAppendUnread,
   teardown_recordsAppendUnread⟩
